import Mathlib

/-!
# SaaSForge core — shallow embedding and verification

Shallow embedding of the security-critical core of the SaaSForge C++ services
(auth engine, webhook delivery engine, email queue, cache client, tenant
context extraction) and proofs checking the natural-language specification
against it.

The embedding translates the C++ sources under `services/cpp`:
* `auth/src/auth_service.cpp` — `Login`, `Logout`, `RefreshToken`,
  `CreateApiKey`, `ValidateApiKey`, `ValidateScope`;
* `common/src/redis_client.cpp` — the cache client (note: `SetSession`,
  `GetSession` and `DeleteSession` all prefix their key with `"session:"`,
  while `BlacklistToken` / `IsTokenBlacklisted` use a bare `"blacklist:"`
  prefix);
* `common/src/jwt_validator.cpp` — token validation with blacklist check;
* `common/src/tenant_context.cpp` — validated and unsafe context extraction;
* `common/src/webhook_delivery.cpp` — queueing, retry policy, SSRF URL
  predicate, consecutive-failure circuit breaker;
* `common/src/email_queue.cpp` — enqueue, bounce handling, suppression.

Machine integers are modelled as `Int` (no arithmetic here approaches 2^31),
database rows as lists of structures, the Redis cache as an association list
of key/value/TTL entries, and fallible operations as `Except`/`Option`.
-/

namespace SaaSForge

/-! ## C++ string primitives

The services manipulate `std::string` values with `find`, `substr`, `back`,
`stoi` and `std::getline` splitting.  These are embedded over `List Char`
(`String.toList`); all the strings involved are ASCII, so character counts
agree with byte counts.
-/

/-- `s.find(pat) == 0`, i.e. `pat` occurs at position 0 of `s`. -/
def cppStartsWith (s pat : String) : Bool :=
  pat.toList.isPrefixOf s.toList

/-- `s.find(c, pos)` for a single character: the smallest index `i ≥ pos`
with `s[i] == c`, `none` for `npos`. -/
def cppFindChar (s : String) (c : Char) (pos : Nat) : Option Nat :=
  (((s.toList.drop pos).findIdx? (fun x => x = c)).map (fun i => i + pos))

/-- `s.substr(pos, len)` (total: clipped at the end of the string, which is
what every call site below guarantees anyway). -/
def cppSubstr (s : String) (pos len : Nat) : String :=
  String.mk ((s.toList.drop pos).take len)

/-- `s.substr(pos)` — from `pos` to the end. -/
def cppSubstrFrom (s : String) (pos : Nat) : String :=
  String.mk (s.toList.drop pos)

/-- `s.back()`, the last character of `s`.  C++ leaves `back()` on an empty
string undefined (it reads past the end of the buffer); the embedding makes
that out-of-range read explicit as `none`. -/
def cppBack (s : String) : Option Char :=
  s.toList.getLast?

/-- `s.substr(0, s.length() - 1)`: the string without its final character. -/
def cppDropLast (s : String) : String :=
  String.mk s.toList.dropLast

/-- `std::stoi`: optional leading whitespace and sign, then at least one
digit; `none` models the `std::invalid_argument` exception.  (Out-of-range
values do not occur at any call site reached in this development.) -/
def cppStoi (s : String) : Option Int :=
  let cs := s.toList.dropWhile (fun c => c.isWhitespace)
  let signDigits : Int × List Char :=
    match cs with
    | '-' :: rest => (-1, rest)
    | '+' :: rest => (1, rest)
    | rest => (1, rest)
  let digits := signDigits.2.takeWhile (fun c => c.isDigit)
  if digits.isEmpty then none
  else some (signDigits.1 * (digits.foldl (fun acc c => acc * 10 + (c.toNat - '0'.toNat)) 0 : Nat))

/-- Helper for `cppGetlineSplit`: consumes characters into the accumulated
current field; a delimiter emits the field, and a delimiter at the very end
of the input emits the field without starting another one. -/
def getlineAux (delim : Char) (acc : List Char) : List Char → List String
  | [] => [String.mk acc.reverse]
  | c :: rest =>
    if c = delim then
      match rest with
      | [] => [String.mk acc.reverse]
      | _ :: _ => String.mk acc.reverse :: getlineAux delim [] rest
    else getlineAux delim (c :: acc) rest

/-- `std::getline(ss, scope, ',')` looping over a stringstream: splits on the
delimiter; a trailing delimiter does not produce a final empty field, and an
empty input produces no fields at all.  (`ValidateApiKey` uses this to split
the stored comma-joined scope list.) -/
def cppGetlineSplit (s : String) (delim : Char) : List String :=
  match s.toList with
  | [] => []
  | cs => getlineAux delim [] cs

/-! ## ValidateScope — `AuthServiceImpl::ValidateScope`

```cpp
bool AuthServiceImpl::ValidateScope(granted_scopes, requested_scope) {
    if (std::find(granted_scopes.begin(), granted_scopes.end(), requested_scope)
        != granted_scopes.end()) return true;          // exact match
    for (const auto& granted : granted_scopes) {
        if (granted.back() == '*') {                   // UB when granted == ""
            std::string prefix = granted.substr(0, granted.length() - 1);
            if (requested_scope.find(prefix) == 0) return true;
        }
    }
    return false;
}
```

The wildcard loop reads `granted.back()`; the embedding returns `none` when
that read is out of range (empty grant string), and `some b` when the C++
function returns `b` without touching undefined behavior.
-/

/-- The wildcard loop of `ValidateScope`.  `none` signals that the loop read
`granted.back()` on an empty grant entry (an out-of-range read in C++). -/
def scopeWildcardLoop (granted : List String) (requested : String) : Option Bool :=
  match granted with
  | [] => some false
  | g :: gs =>
    match cppBack g with
    | none => none
    | some c =>
      if c = '*' then
        if cppStartsWith requested (cppDropLast g) then some true
        else scopeWildcardLoop gs requested
      else scopeWildcardLoop gs requested

/-- `AuthServiceImpl::ValidateScope`, with the out-of-range `back()` read made
explicit as `none`. -/
def validateScope (grantedScopes : List String) (requestedScope : String) : Option Bool :=
  if grantedScopes.any (fun g => g == requestedScope) then some true
  else scopeWildcardLoop grantedScopes requestedScope

/-- The spec's reference definition of `ScopeMatch` (§4.H): grant when some
granted entry equals the request, or ends with `*` and the request starts
with the grant minus the trailing `*`.  (The literal grant `*` is the
instance whose remaining prefix is empty.) -/
def specScopeMatch (granted : List String) (requested : String) : Bool :=
  granted.any (fun g =>
    g == requested ||
    ((cppBack g == some '*') && cppStartsWith requested (cppDropLast g)))

/-! ## Webhook retry policy — pure helpers of `WebhookDelivery` -/

/-- `WebhookDelivery::ShouldRetry(retry_count, http_status)`. -/
def webhookShouldRetry (retryCount httpStatus : Int) : Bool :=
  if 400 ≤ httpStatus ∧ httpStatus < 500 ∧ httpStatus ≠ 429 then false
  else retryCount < 5

/-- `WebhookDelivery::GetRetryDelay(retry_count)` in seconds. -/
def webhookRetryDelay (retryCount : Int) : Int :=
  if retryCount = 0 then 0
  else if retryCount = 1 then 1
  else if retryCount = 2 then 5
  else if retryCount = 3 then 30
  else if retryCount = 4 then 300
  else if retryCount = 5 then 1800
  else 1800

/-! ## SafeUrl — `WebhookDelivery::ValidateUrl` (SSRF guard) -/

/-- General `s.find(pat, pos)`: the smallest index `i ≥ pos` at which `pat`
occurs in `s`, `none` for `npos`. -/
def cppFindStr (s pat : String) (pos : Nat) : Option Nat :=
  (List.range (s.toList.length + 1)).find?
    (fun i => decide (pos ≤ i) && pat.toList.isPrefixOf (s.toList.drop i))

/-- `WebhookDelivery::ValidateUrl`, translated clause by clause.  The
`(cppFindStr url "://" 0).getD n` default is unreachable: the scheme check
already guarantees that `"://"` occurs (at index 4 or 5). -/
def validateUrl (url : String) : Bool :=
  if ¬ cppStartsWith url "http://" ∧ ¬ cppStartsWith url "https://" then false
  else
    let n := url.toList.length
    let protocolEnd := (cppFindStr url "://" 0).getD n + 3
    let hostEnd :=
      match cppFindChar url ':' protocolEnd with
      | some i => i
      | none =>
        match cppFindChar url '/' protocolEnd with
        | some i => i
        | none => n
    let host := cppSubstr url protocolEnd (hostEnd - protocolEnd)
    if host = "localhost" ∨ host = "127.0.0.1" ∨ host = "0.0.0.0" ∨
       host = "::1" ∨ host = "[::1]" then false
    else if cppStartsWith host "192.168." ∨ cppStartsWith host "10." then false
    else
      -- 172.16.0.0 - 172.31.255.255 range check
      let in172Private : Bool :=
        if cppStartsWith host "172." then
          match cppFindChar host '.' 4 with
          | some secondDot =>
            match cppStoi (cppSubstr host 4 (secondDot - 4)) with
            | some octet => decide (16 ≤ octet ∧ octet ≤ 31)
            | none => true          -- std::stoi threw; the catch returns false
          | none => false
        else false
      if in172Private then false
      else if cppStartsWith host "169.254." then false
      else
        -- port validation when the character at host_end is ':'
        let portBad : Bool :=
          if hostEnd < n ∧ url.toList.getD hostEnd ' ' = ':' then
            let portEnd := (cppFindChar url '/' hostEnd).getD n
            match cppStoi (cppSubstr url (hostEnd + 1) (portEnd - hostEnd - 1)) with
            | some port => decide (port ≠ 80 ∧ port ≠ 443 ∧ port ≠ 8080 ∧ port ≠ 8443)
            | none => true          -- std::stoi threw; the catch returns false
          else false
        if portBad then false else true

/-! ## Cache client — `RedisClient`

The Redis store is an association list of key/value/TTL entries.  The client
methods in `redis_client.cpp` prepend fixed prefixes to the keys they are
given: `SetSession` / `GetSession` / `DeleteSession` all prepend
`"session:"`, while `BlacklistToken` / `IsTokenBlacklisted` prepend
`"blacklist:"`.
-/

structure RedisEntry where
  key : String
  value : String
  ttl : Int
deriving DecidableEq, Repr

abbrev RedisStore := List RedisEntry

/-- `SETEX key ttl value`: overwrite, no prior-existence check. -/
def redisSetex (r : RedisStore) (k v : String) (ttl : Int) : RedisStore :=
  ⟨k, v, ttl⟩ :: r.filter (fun e => e.key ≠ k)

/-- `GET key`. -/
def redisGet (r : RedisStore) (k : String) : Option String :=
  (r.find? (fun e => e.key == k)).map (fun e => e.value)

/-- Remaining TTL of a key (for stating TTL properties). -/
def redisTtl (r : RedisStore) (k : String) : Option Int :=
  (r.find? (fun e => e.key == k)).map (fun e => e.ttl)

/-- `DEL key`. -/
def redisDel (r : RedisStore) (k : String) : RedisStore :=
  r.filter (fun e => e.key ≠ k)

/-- `RedisClient::SetSession(session_id, data, ttl)` — note the `"session:"`
key prefix. -/
def setSession (r : RedisStore) (sessionId data : String) (ttl : Int) : RedisStore :=
  redisSetex r ("session:" ++ sessionId) data ttl

/-- `RedisClient::GetSession(session_id)`. -/
def getSession (r : RedisStore) (sessionId : String) : Option String :=
  redisGet r ("session:" ++ sessionId)

/-- `RedisClient::DeleteSession(session_id)`. -/
def deleteSession (r : RedisStore) (sessionId : String) : RedisStore :=
  redisDel r ("session:" ++ sessionId)

/-- `RedisClient::BlacklistToken(jti, ttl)` — bare `"blacklist:"` prefix.
(No service code calls this method.) -/
def blacklistToken (r : RedisStore) (jti : String) (ttl : Int) : RedisStore :=
  redisSetex r ("blacklist:" ++ jti) "\x7b\"reason\":\"logout\"\x7d" ttl

/-- `RedisClient::IsTokenBlacklisted(jti)` — reads the bare
`"blacklist:<jti>"` key. -/
def isTokenBlacklisted (r : RedisStore) (jti : String) : Bool :=
  (redisGet r ("blacklist:" ++ jti)).isSome

/-! ## Token validator — `JwtValidator` -/

structure TokenClaims where
  userId : String
  tenantId : String
  email : String
  jti : String
  exp : Int
  iat : Int
  roles : List String
deriving DecidableEq, Repr

/-- The result of `jwt::decode` plus the outcome of the RS256 signature
check performed by `verifier_.verify`.  `signatureValid` abstracts the
cryptographic verification; `issuer` is the token's `iss` claim checked
against the configured string. -/
structure DecodedJwt where
  claims : TokenClaims
  issuer : String
  signatureValid : Bool
deriving DecidableEq, Repr

/-- `JwtValidator::Validate(token)`: decode (an exception yields `none`),
verify signature, issuer and expiry, then reject when the jti is
blacklisted.  `decode` abstracts `jwt::decode` as a partial map from token
strings to decoded tokens. -/
def jwtValidate (decode : String → Option DecodedJwt) (redis : RedisStore)
    (now : Int) (token : String) : Option TokenClaims :=
  match decode token with
  | none => none
  | some d =>
    if d.signatureValid ∧ d.issuer = "saasforge" ∧ now < d.claims.exp then
      if isTokenBlacklisted redis d.claims.jti then none
      else some d.claims
    else none

/-! ## gRPC status codes -/

inductive GrpcStatus
  | ok
  | invalidArgument
  | unauthenticated
  | permissionDenied
  | failedPrecondition
  | notFound
  | internal
deriving DecidableEq, Repr

/-! ## Logout — `AuthServiceImpl::Logout`

The handler deletes the refresh binding, then — when a valid bearer access
token with a non-empty jti and positive remaining lifetime is attached —
writes the blacklist entry.  Crucially it writes it through
`RedisClient::SetSession("blacklist:" + jti, "logout", ttl)`, so the entry
lands under the key `session:blacklist:<jti>`, not under the
`blacklist:<jti>` key that `IsTokenBlacklisted` reads.
-/

structure LogoutResult where
  status : GrpcStatus
  redis : RedisStore
deriving Repr

def logout (decode : String → Option DecodedJwt) (redis0 : RedisStore) (now : Int)
    (refreshToken : String) (authHeader : Option String) : LogoutResult :=
  if refreshToken = "" then ⟨.invalidArgument, redis0⟩
  else
    match cppFindChar refreshToken ':' 0 with
    | none => ⟨.invalidArgument, redis0⟩
    | some colonPos =>
      let userId := cppSubstr refreshToken 0 colonPos
      let r1 := deleteSession redis0 ("refresh:" ++ userId)
      let r2 :=
        match authHeader with
        | none => r1
        | some authValue =>
          if cppStartsWith authValue "Bearer " then
            let accessToken := cppSubstrFrom authValue 7
            match jwtValidate decode r1 now accessToken with
            | some claims =>
              if claims.jti ≠ "" then
                let ttl := claims.exp - now
                if ttl > 0 then setSession r1 ("blacklist:" ++ claims.jti) "logout" ttl
                else r1
              else r1
            | none => r1
          else r1
      ⟨.ok, r2⟩

/-! ## Tenant context — `TenantContextInterceptor` -/

structure Metadata where
  authorization : Option String
  xTenantId : Option String
  xUserId : Option String
  xUserEmail : Option String
  xUserRoles : Option String
deriving Repr

structure TenantContext where
  tenantId : String
  userId : String
  email : String
  roles : List String
  validated : Bool
deriving DecidableEq, Repr

/-- `std::isspace` over the default locale, for the role trimming loops. -/
def cppIsSpace (c : Char) : Bool :=
  c = ' ' ∨ c = '\t' ∨ c = '\n' ∨ c = '\x0b' ∨ c = '\x0c' ∨ c = '\r'

/-- The whitespace trimming applied to each role segment
(`remove_prefix` / `remove_suffix` loops). -/
def trimChars (cs : List Char) : List Char :=
  ((cs.dropWhile cppIsSpace).reverse.dropWhile cppIsSpace).reverse

/-- One trimmed, possibly discarded role segment. -/
def roleSegment (acc : List Char) : List String :=
  let t := trimChars acc.reverse
  if t.isEmpty then [] else [String.mk t]

/-- The comma-splitting loop of `ExtractFromMetadataUnsafe`: every segment
before a `','` is trimmed and kept when non-empty; the leftover after the
last `','` is processed only when it is non-empty (`start < length`). -/
def rolesAux (acc : List Char) : List Char → List String
  | [] => if acc.isEmpty then [] else roleSegment acc
  | c :: rest =>
    if c = ',' then roleSegment acc ++ rolesAux [] rest
    else rolesAux (c :: acc) rest

/-- Parse the `x-user-roles` comma-separated header value. -/
def parseRoles (s : String) : List String :=
  rolesAux [] s.toList

/-- `TenantContextInterceptor::ExtractFromMetadataUnsafe`: copies the legacy
headers into the context and marks it `validated = false`. -/
def extractFromMetadataUnsafe (md : Metadata) : TenantContext :=
  { tenantId := md.xTenantId.getD ""
    userId := md.xUserId.getD ""
    email := md.xUserEmail.getD ""
    roles := match md.xUserRoles with | none => [] | some s => parseRoles s
    validated := false }

/-- `TenantContextInterceptor::ExtractJwtFromMetadata`: the `authorization`
metadata value with a `"Bearer "` prefix stripped (only when the value is
strictly longer than the prefix). -/
def extractJwtFromMetadata (md : Metadata) : String :=
  match md.authorization with
  | none => ""
  | some v =>
    if v.toList.length > 7 ∧ cppSubstr v 0 7 = "Bearer " then cppSubstrFrom v 7
    else v

/-- The validator argument of `ExtractFromMetadata` (a `JwtValidator`
together with the cache and clock it validates against); `none` models the
`nullptr` default argument. -/
structure ValidatorCtx where
  decode : String → Option DecodedJwt
  redis : RedisStore
  now : Int

/-- `TenantContextInterceptor::ExtractFromMetadata(context, jwt_validator)`.
With a validator: validate the bearer token, reject an `x-tenant-id` that
disagrees with the claim, and bind the claims.  Without a validator — the
default — fall back to the unsafe extraction. -/
def extractFromMetadata (md : Metadata) (validator : Option ValidatorCtx) : TenantContext :=
  let requestedTenant := md.xTenantId.getD ""
  match validator with
  | some vc =>
    let jwtToken := extractJwtFromMetadata md
    if jwtToken ≠ "" then
      match jwtValidate vc.decode vc.redis vc.now jwtToken with
      | some claims =>
        if requestedTenant ≠ "" ∧ claims.tenantId ≠ requestedTenant then
          { tenantId := "", userId := "", email := "", roles := [], validated := false }
        else
          { tenantId := claims.tenantId, userId := claims.userId,
            email := claims.email, roles := claims.roles, validated := true }
      | none => { tenantId := "", userId := "", email := "", roles := [], validated := false }
    else extractFromMetadataUnsafe md
  | none => extractFromMetadataUnsafe md

/-! ## Password hasher model

`PasswordHasher::HashPassword` / `VerifyPassword` (Argon2id) are abstracted
as an injective tagged string and a recompute-and-compare check — the ideal
contract (§8.1) the call sites rely on.  No claim in this development
depends on properties of the hash beyond this contract.
-/

def hashPassword (password : String) : String :=
  "$argon2id$" ++ password

def verifyPassword (password hashed : String) : Bool :=
  hashed == hashPassword password

/-! ## CreateApiKey — `AuthServiceImpl::CreateApiKey`

The handler obtains its context through
`TenantContextInterceptor::ExtractFromMetadata(context)` — with no second
argument, so the `jwt_validator` parameter defaults to `nullptr` and the
call falls back to the unsafe header extraction — and then gates only on
`tenant_ctx.user_id.empty()`.
-/

structure ApiKeyRow where
  userId : String
  tenantId : String
  keyHash : String
  name : String
  scopes : String
deriving DecidableEq, Repr

structure CreateApiKeyResult where
  status : GrpcStatus
  db : List ApiKeyRow
  apiKey : Option String
deriving DecidableEq, Repr

/-- The comma-join loop over the request's repeated `scopes` field. -/
def joinScopes : List String → String
  | [] => ""
  | s :: rest => rest.foldl (fun acc x => acc ++ "," ++ x) s

/-- `AuthServiceImpl::CreateApiKey`.  `generatedKey` stands for the randomly
generated `sk_<hex>` key material. -/
def createApiKey (db : List ApiKeyRow) (md : Metadata) (name : String)
    (scopes : List String) (generatedKey : String) : CreateApiKeyResult :=
  let ctx := extractFromMetadata md none   -- jwt_validator defaults to nullptr
  if ctx.userId = "" then ⟨.unauthenticated, db, none⟩
  else
    let row : ApiKeyRow :=
      { userId := ctx.userId, tenantId := ctx.tenantId,
        keyHash := hashPassword generatedKey, name := name,
        scopes := joinScopes scopes }
    ⟨.ok, db ++ [row], some generatedKey⟩

/-! ## Users, Login and RefreshToken — `AuthServiceImpl` -/

structure UserRow where
  id : String
  tenantId : String
  email : String
  passwordHash : Option String
  totpSecret : Option String
  deletedAt : Option Int
deriving DecidableEq, Repr

structure BackupCodeRow where
  userId : String
  codeHash : String
  usedAt : Option Int
deriving DecidableEq, Repr

/-- `SELECT ... FROM users WHERE email = $1 AND deleted_at IS NULL`
(first row). -/
def findUserByEmail (users : List UserRow) (email : String) : Option UserRow :=
  users.find? (fun u => u.email == email && u.deletedAt.isNone)

/-- `SELECT ... FROM users WHERE id = $1 AND deleted_at IS NULL`
(first row). -/
def findUserById (users : List UserRow) (id : String) : Option UserRow :=
  users.find? (fun u => u.id == id && u.deletedAt.isNone)

/-- `UPDATE backup_codes SET used_at = NOW() WHERE code_hash = $1`
(the SQL filters on the hash only). -/
def markBackupCodeUsed (codes : List BackupCodeRow) (hash : String) (now : Int) :
    List BackupCodeRow :=
  codes.map (fun c => if c.codeHash == hash then { c with usedAt := some now } else c)

structure LoginResult where
  status : GrpcStatus
  redis : RedisStore
  backupCodes : List BackupCodeRow
  tokens : Option (String × String × Int)   -- access token, refresh token, expires_in
deriving Repr

/-- Token issue and refresh-binding store at the end of `Login`
(30-day TTL, `expires_in = 900`). -/
def loginIssue (row : UserRow) (codes : List BackupCodeRow) (redis : RedisStore)
    (newAccessToken newRefreshToken : String) : LoginResult :=
  let redis' := setSession redis ("refresh:" ++ row.id) newRefreshToken (30 * 24 * 3600)
  ⟨.ok, redis', codes, some (newAccessToken, newRefreshToken, 900)⟩

/-- The 2FA stage of `Login`: when the user has a TOTP secret, require a
code, validate it, and otherwise scan the user's unused backup codes,
marking the first verifying one as used.  `totpValid` abstracts
`TotpHelper::ValidateCode` (clock-dependent) and `backupValid` abstracts
`TotpHelper::VerifyBackupCode`. -/
def loginTotpStage (row : UserRow) (codes : List BackupCodeRow) (redis : RedisStore)
    (totpCode : Option String) (totpValid backupValid : String → String → Bool)
    (newAccessToken newRefreshToken : String) (now : Int) : LoginResult :=
  match row.totpSecret with
  | none => loginIssue row codes redis newAccessToken newRefreshToken
  | some secret =>
    match totpCode with
    | none => ⟨.failedPrecondition, redis, codes, none⟩
    | some code =>
      if code = "" then ⟨.failedPrecondition, redis, codes, none⟩
      else if totpValid secret code then
        loginIssue row codes redis newAccessToken newRefreshToken
      else
        let unused := codes.filter (fun c => c.userId == row.id && c.usedAt.isNone)
        match unused.find? (fun c => backupValid code c.codeHash) with
        | some hit =>
          loginIssue row (markBackupCodeUsed codes hit.codeHash now) redis
            newAccessToken newRefreshToken
        | none => ⟨.unauthenticated, redis, codes, none⟩

/-- `AuthServiceImpl::Login`.  A `NULL` `password_hash` column is read as
the empty string; an empty stored hash marks an OAuth-only account, which
rejects any non-empty password (and an empty password is already rejected
by the input validation at the top). -/
def login (users : List UserRow) (codes : List BackupCodeRow) (redis0 : RedisStore)
    (email password : String) (totpCode : Option String)
    (totpValid backupValid : String → String → Bool)
    (newAccessToken newRefreshToken : String) (now : Int) : LoginResult :=
  if email = "" ∨ password = "" then ⟨.invalidArgument, redis0, codes, none⟩
  else
    match findUserByEmail users email with
    | none => ⟨.unauthenticated, redis0, codes, none⟩
    | some row =>
      let passwordHash := (row.passwordHash).getD ""
      if passwordHash = "" then
        if password ≠ "" then ⟨.unauthenticated, redis0, codes, none⟩
        else
          loginTotpStage row codes redis0 totpCode totpValid backupValid
            newAccessToken newRefreshToken now
      else if verifyPassword password passwordHash then
        loginTotpStage row codes redis0 totpCode totpValid backupValid
          newAccessToken newRefreshToken now
      else ⟨.unauthenticated, redis0, codes, none⟩

/-! ## RefreshToken — `AuthServiceImpl::RefreshToken`

The result records the sequence of cache commands issued (with the full
keys as they reach Redis, i.e. including the `"session:"` prefix the client
methods prepend) so that the delete-then-insert rotation order is part of
the observable behavior.
-/

inductive CacheOp
  | get (key : String)
  | del (key : String)
  | setex (key value : String) (ttl : Int)
deriving DecidableEq, Repr

structure RefreshResult where
  status : GrpcStatus
  redis : RedisStore
  tokens : Option (String × String × Int)
  trace : List CacheOp
deriving Repr

/-- `AuthServiceImpl::RefreshToken`. -/
def refreshTokenOp (redis0 : RedisStore) (users : List UserRow) (presented : String)
    (newAccessToken newRefreshToken : String) : RefreshResult :=
  if presented = "" then ⟨.invalidArgument, redis0, none, []⟩
  else
    match cppFindChar presented ':' 0 with
    | none => ⟨.unauthenticated, redis0, none, []⟩
    | some colonPos =>
      let userId := cppSubstr presented 0 colonPos
      let redisKey := "refresh:" ++ userId
      let fullKey := "session:" ++ redisKey
      match getSession redis0 redisKey with
      | none => ⟨.unauthenticated, redis0, none, [.get fullKey]⟩
      | some stored =>
        if stored ≠ presented then
          -- token reuse detected: revoke and deny
          ⟨.permissionDenied, deleteSession redis0 redisKey, none,
            [.get fullKey, .del fullKey]⟩
        else
          match findUserById users userId with
          | none =>
            ⟨.unauthenticated, deleteSession redis0 redisKey, none,
              [.get fullKey, .del fullKey]⟩
          | some _row =>
            let r1 := deleteSession redis0 redisKey
            let r2 := setSession r1 redisKey newRefreshToken (30 * 24 * 3600)
            ⟨.ok, r2, some (newAccessToken, newRefreshToken, 900),
              [.get fullKey, .del fullKey, .setex fullKey newRefreshToken (30 * 24 * 3600)]⟩

/-! ## Webhook delivery engine — `WebhookDelivery`

`QueueDelivery` and `MarkFailed` over the `webhooks` / `webhook_deliveries`
tables.  A thrown `std::runtime_error` is an `Except.error` carrying the
message; an error leaves the (un-committed) transaction rolled back, so the
error constructor carries no state.

`MarkFailed` is transaction-sensitive: its delivery update and its
`failure_count` increment run inside one open transaction on one pooled
connection, while `GetConsecutiveFailures` and `DisableWebhook` each acquire
a fresh connection and their own transaction.  Under the store's
read-committed isolation `GetConsecutiveFailures` therefore observes the
`failure_count` as of the last commit — i.e. the value *before* this call's
increment.  The model applies `DisableWebhook`'s update directly, which is
the most favorable reading: in the running system that `UPDATE webhooks`
statement additionally blocks on the row lock held by the still-open
`MarkFailed` transaction.
-/

inductive WebhookStatus
  | pending | sending | delivered | failed | retry | exhausted
deriving DecidableEq, Repr

structure WebhookRow where
  id : String
  tenantId : String
  url : String
  status : String                 -- "active" / "disabled"
  failureCount : Int
  disabledReason : Option String
deriving DecidableEq, Repr

structure WebhookDeliveryRow where
  id : String
  webhookId : String
  eventType : String
  payload : String
  url : String
  signature : String
  status : WebhookStatus
  retryCount : Int
  httpStatusCode : Option Int
  scheduledAt : Int
  errorMessage : String
deriving DecidableEq, Repr

structure WebhookDb where
  webhooks : List WebhookRow
  deliveries : List WebhookDeliveryRow
deriving DecidableEq, Repr

/-- `WebhookSigner::GetMockWebhookSecret`. -/
def getMockWebhookSecret (tenantId webhookId : String) : String :=
  "whsec_" ++ tenantId ++ "_" ++ webhookId ++ "_mock_secret_key"

/-- `WebhookSigner::SignPayload` (HMAC-SHA256 hex), abstracted as an
injective tag of payload and secret; no claim depends on the digest. -/
def signPayload (payload secret : String) : String :=
  "hmac-sha256(" ++ secret ++ "," ++ payload ++ ")"

/-- `WebhookDelivery::QueueDelivery`. -/
def queueDelivery (db : WebhookDb) (tenantId webhookId eventType payload : String)
    (now : Int) (newId : String) : Except String (String × WebhookDb) :=
  match db.webhooks.find? (fun w => w.id == webhookId && w.tenantId == tenantId) with
  | none => .error ("Webhook not found: " ++ webhookId)
  | some w =>
    if w.status ≠ "active" then .error ("Webhook is not active: " ++ webhookId)
    else if ¬ validateUrl w.url then
      .error ("Invalid webhook URL (SSRF protection): " ++ w.url)
    else
      let signature := signPayload payload (getMockWebhookSecret tenantId webhookId)
      let row : WebhookDeliveryRow :=
        { id := newId, webhookId := webhookId, eventType := eventType,
          payload := payload, url := w.url, signature := signature,
          status := .pending, retryCount := 0, httpStatusCode := none,
          scheduledAt := now, errorMessage := "" }
      .ok (newId, { db with deliveries := db.deliveries ++ [row] })

/-- `WebhookDelivery::MarkFailed`. -/
def webhookMarkFailed (db : WebhookDb) (deliveryId : String) (httpStatus : Int)
    (errorMessage : String) (now : Int) : Except String WebhookDb :=
  match db.deliveries.find? (fun d => d.id == deliveryId) with
  | none => .error ("Delivery not found: " ++ deliveryId)
  | some d =>
    let webhookId := d.webhookId
    -- delivery update inside this call's transaction
    let newDelivery : WebhookDeliveryRow :=
      if webhookShouldRetry d.retryCount httpStatus then
        { d with status := .retry, retryCount := d.retryCount + 1,
                 httpStatusCode := some httpStatus, errorMessage := errorMessage,
                 scheduledAt := now + webhookRetryDelay (d.retryCount + 1) }
      else
        { d with status := .exhausted, httpStatusCode := some httpStatus,
                 errorMessage := errorMessage }
    -- GetConsecutiveFailures runs on a separate connection/transaction and
    -- sees the last committed failure_count (this call's increment is still
    -- uncommitted at that point).
    -- GetConsecutiveFailures returns 0 when the webhook row is missing
    let consecutive : Int :=
      ((db.webhooks.find? (fun w => w.id == webhookId)).map (fun w => w.failureCount)).getD 0
    let webhooks1 := db.webhooks.map (fun w =>
      if w.id == webhookId then { w with failureCount := w.failureCount + 1 } else w)
    -- DisableWebhook (also a separate connection; see the section comment)
    let webhooks2 :=
      if consecutive ≥ (10 : Int) then
        webhooks1.map (fun w =>
          if w.id == webhookId then
            { w with status := "disabled",
                     disabledReason := some ("Too many consecutive failures (" ++
                       toString consecutive ++ ")") }
          else w)
      else webhooks1
    .ok { webhooks := webhooks2,
          deliveries := db.deliveries.map (fun x => if x.id == deliveryId then newDelivery else x) }

/-- `n` consecutive `MarkFailed` calls against the same delivery (no
intervening `MarkDelivered`). -/
def iterMarkFailed (db : WebhookDb) (deliveryId : String) (httpStatus : Int)
    (errorMessage : String) (now : Int) : Nat → Except String WebhookDb
  | 0 => .ok db
  | n + 1 =>
    match webhookMarkFailed db deliveryId httpStatus errorMessage now with
    | .error e => .error e
    | .ok db' => iterMarkFailed db' deliveryId httpStatus errorMessage now n

/-! ## Email queue — `EmailQueue` -/

inductive EmailStatus
  | pending | sending | sent | failed | retry | exhausted | bounced
deriving DecidableEq, Repr

inductive BounceType
  | noBounce | soft | hard
deriving DecidableEq, Repr

structure EmailRow where
  id : String
  tenantId : String
  userId : String
  toAddress : String
  subject : String
  bodyHtml : String
  bodyText : String
  templateId : String
  status : EmailStatus
  retryCount : Int
  scheduledAt : Int
  bounceType : BounceType
  errorMessage : String
deriving DecidableEq, Repr

structure SuppressionRow where
  address : String
  reason : String
deriving DecidableEq, Repr

structure EmailDb where
  queue : List EmailRow
  suppression : List SuppressionRow
deriving DecidableEq, Repr

/-- `EmailQueue::IsAddressSuppressed`. -/
def isAddressSuppressed (db : EmailDb) (address : String) : Bool :=
  db.suppression.any (fun s => s.address == address)

/-- `EmailQueue::SuppressAddress` — `INSERT ... ON CONFLICT (email_address)
DO UPDATE` (upsert). -/
def suppressAddress (db : EmailDb) (address reason : String) : EmailDb :=
  if db.suppression.any (fun s => s.address == address) then
    { db with suppression := db.suppression.map (fun s =>
        if s.address == address then { s with reason := reason } else s) }
  else
    { db with suppression := db.suppression ++ [⟨address, reason⟩] }

/-- `EmailQueue::Enqueue`. -/
def enqueueEmail (db : EmailDb) (tenantId userId toAddress subject bodyHtml bodyText
    templateId : String) (priority : Int) (now : Int) (newId : String) :
    Except String (String × EmailDb) :=
  if isAddressSuppressed db toAddress then
    .error "Email address is suppressed due to hard bounce"
  else
    let row : EmailRow :=
      { id := newId, tenantId := tenantId, userId := userId, toAddress := toAddress,
        subject := subject, bodyHtml := bodyHtml, bodyText := bodyText,
        templateId := templateId, status := .pending, retryCount := 0,
        scheduledAt := now, bounceType := .noBounce, errorMessage := "" }
    have := priority   -- priority is stored but not consulted by any modelled path
    .ok (newId, { db with queue := db.queue ++ [row] })

/-- `EmailQueue::ShouldRetry(retry_count, is_hard_bounce)`. -/
def emailShouldRetry (retryCount : Int) (isHardBounce : Bool) : Bool :=
  if isHardBounce then false else retryCount < 3

/-- `EmailQueue::GetRetryDelay(retry_count)` in seconds. -/
def emailRetryDelay (retryCount : Int) : Int :=
  if retryCount = 0 then 0
  else if retryCount = 1 then 1
  else if retryCount = 2 then 5
  else if retryCount = 3 then 30
  else 30

/-- `EmailQueue::MarkFailed(email_id, error_message, is_hard_bounce)`. -/
def emailMarkFailed (db : EmailDb) (emailId errorMessage : String)
    (isHardBounce : Bool) (now : Int) : Except String EmailDb :=
  match db.queue.find? (fun e => e.id == emailId) with
  | none => .error ("Email not found: " ++ emailId)
  | some e =>
    if isHardBounce then
      let db1 := { db with queue := db.queue.map (fun x =>
        if x.id == emailId then
          { x with status := .bounced, bounceType := .hard, errorMessage := errorMessage }
        else x) }
      .ok (suppressAddress db1 e.toAddress errorMessage)
    else if emailShouldRetry e.retryCount isHardBounce then
      .ok { db with queue := db.queue.map (fun x =>
        if x.id == emailId then
          { x with status := .retry, retryCount := e.retryCount + 1,
                   errorMessage := errorMessage,
                   scheduledAt := now + emailRetryDelay (e.retryCount + 1) }
        else x) }
    else
      .ok { db with queue := db.queue.map (fun x =>
        if x.id == emailId then
          { x with status := .exhausted, errorMessage := errorMessage }
        else x) }

/-- `EmailQueue::MarkBounced(email_id, bounce_type, error_message)`. -/
def emailMarkBounced (db : EmailDb) (emailId : String) (bounceType : BounceType)
    (errorMessage : String) : Except String EmailDb :=
  match db.queue.find? (fun e => e.id == emailId) with
  | none => .error ("Email not found: " ++ emailId)
  | some e =>
    if bounceType = .hard then
      let db1 := { db with queue := db.queue.map (fun x =>
        if x.id == emailId then
          { x with status := .bounced, bounceType := .hard, errorMessage := errorMessage }
        else x) }
      .ok (suppressAddress db1 e.toAddress errorMessage)
    else
      .ok { db with queue := db.queue.map (fun x =>
        if x.id == emailId then
          { x with bounceType := .soft, errorMessage := errorMessage }
        else x) }

/-! ## Concrete fixtures used by the closed theorems and witnesses -/

/-- Claims of a freshly issued access token: issued at 1000, 15-minute
lifetime (`exp = iat + 900`), jti `"j1"`. -/
def sampleClaims : TokenClaims :=
  { userId := "u1", tenantId := "t1", email := "u1@example.com", jti := "j1",
    exp := 1900, iat := 1000, roles := [] }

/-- A decode map knowing exactly one well-signed token string `"tok1"`
issued by `"saasforge"`. -/
def sampleDecode : String → Option DecodedJwt :=
  fun s => if s = "tok1" then some ⟨sampleClaims, "saasforge", true⟩ else none

/-- Cache state right after a successful login of user `u1`: the refresh
binding `refresh:u1 → "u1:aaaa"` with the 30-day TTL (stored, as always,
under the `session:`-prefixed key). -/
def sampleRedisAfterLogin : RedisStore :=
  setSession [] "refresh:u1" "u1:aaaa" (30 * 24 * 3600)

/-- The user row behind the session above. -/
def sampleUser : UserRow :=
  { id := "u1", tenantId := "t1", email := "u1@example.com",
    passwordHash := some (hashPassword "pw"), totpSecret := none, deletedAt := none }

/-- A user row with a `NULL` password hash (OAuth-only account). -/
def sampleOauthUser : UserRow :=
  { id := "u9", tenantId := "t1", email := "oauth@example.com",
    passwordHash := none, totpSecret := none, deletedAt := none }

/-- Metadata carrying no bearer credential but the legacy
`x-user-id` / `x-tenant-id` headers. -/
def legacyMetadata : Metadata :=
  { authorization := none, xTenantId := some "t-1", xUserId := some "u-1",
    xUserEmail := none, xUserRoles := none }

/-- A fresh, active webhook with one pending delivery. -/
def sampleWebhookDb : WebhookDb :=
  { webhooks := [{ id := "w1", tenantId := "t1", url := "https://example.com/h",
                   status := "active", failureCount := 0, disabledReason := none }],
    deliveries := [{ id := "d1", webhookId := "w1", eventType := "evt", payload := "p",
                     url := "https://example.com/h", signature := "sig", status := .pending,
                     retryCount := 0, httpStatusCode := none, scheduledAt := 0,
                     errorMessage := "" }] }

/-- A webhook already in the `disabled` state. -/
def sampleDisabledWebhookDb : WebhookDb :=
  { webhooks := [{ id := "w1", tenantId := "t1", url := "https://example.com/h",
                   status := "disabled", failureCount := 12, disabledReason := some "r" }],
    deliveries := [] }

/-- One email in the `SENDING` state, no suppressions. -/
def sampleEmailDb : EmailDb :=
  { queue := [{ id := "e1", tenantId := "t1", userId := "u1", toAddress := "a@example.com",
                subject := "s", bodyHtml := "h", bodyText := "t", templateId := "",
                status := .sending, retryCount := 0, scheduledAt := 0,
                bounceType := .noBounce, errorMessage := "" }],
    suppression := [] }

/-- The queued row of `sampleEmailDb`. -/
def sampleEmailRow : EmailRow :=
  { id := "e1", tenantId := "t1", userId := "u1", toAddress := "a@example.com",
    subject := "s", bodyHtml := "h", bodyText := "t", templateId := "",
    status := .sending, retryCount := 0, scheduledAt := 0,
    bounceType := .noBounce, errorMessage := "" }

/-- An email store whose suppression table already holds `b@example.com`. -/
def sampleSuppressedDb : EmailDb :=
  { queue := [], suppression := [⟨"b@example.com", "previous hard bounce"⟩] }

/-! ## Helper lemmas -/

theorem getLast?_isSome_of_ne_nil (l : List Char) (h : l ≠ []) : ∃ c, l.getLast? = some c := by
  induction l with
  | nil => exact absurd rfl h
  | cons a as ih =>
    cases as with
    | nil => exact ⟨a, rfl⟩
    | cons b bs =>
      obtain ⟨c, hc⟩ := ih (by simp)
      exact ⟨c, by rw [List.getLast?_cons_cons]; exact hc⟩

theorem exists_cppBack_of_ne_empty (g : String) (h : g ≠ "") : ∃ c, cppBack g = some c := by
  apply getLast?_isSome_of_ne_nil
  intro hnil
  apply h
  have := congrArg String.mk hnil
  simpa using this

/-- On a grant list without empty entries the wildcard loop is total and
computes the `any` of the wildcard test. -/
theorem scopeWildcardLoop_eq_any (G : List String) (r : String) (h : ∀ g ∈ G, g ≠ "") :
    scopeWildcardLoop G r =
      some (G.any fun g => (cppBack g == some '*') && cppStartsWith r (cppDropLast g)) := by
  induction G with
  | nil => rfl
  | cons g gs ih =>
    obtain ⟨c, hc⟩ := exists_cppBack_of_ne_empty g (h g (by simp))
    have hgs := ih (fun x hx => h x (by simp [hx]))
    unfold scopeWildcardLoop
    rw [hc]
    by_cases hstar : c = '*'
    · subst hstar
      by_cases hpre : cppStartsWith r (cppDropLast g)
      · simp [hpre, hc]
      · simp only [List.any_cons, hc]
        simp [hpre, hgs]
    · have hb : ((some c == some '*') : Bool) = false := by
        simp [hstar]
      simp only [List.any_cons, hc, hb]
      simp [hstar, hgs]

theorem any_or_split (l : List String) (p q : String → Bool) :
    l.any (fun g => p g || q g) = (l.any p || l.any q) := by
  induction l with
  | nil => rfl
  | cons g gs ih =>
    simp [List.any_cons, ih]
    cases p g <;> cases q g <;> cases gs.any p <;> cases gs.any q <;> rfl

/-- On grant lists without empty entries, `ValidateScope` terminates without
the out-of-range read and agrees with the spec's reference `ScopeMatch`. -/
theorem validateScope_eq_spec (G : List String) (r : String) (h : "" ∉ G) :
    validateScope G r = some (specScopeMatch G r) := by
  have hne : ∀ g ∈ G, g ≠ "" := fun g hg hgE => h (hgE ▸ hg)
  have hsplit : specScopeMatch G r =
      (G.any (fun g => g == r) ||
       G.any (fun g => (cppBack g == some '*') && cppStartsWith r (cppDropLast g))) :=
    any_or_split G _ _
  unfold validateScope
  by_cases hany : G.any (fun g => g == r)
  · rw [if_pos hany, hsplit, hany]
    rfl
  · rw [if_neg hany, scopeWildcardLoop_eq_any G r hne, hsplit]
    rw [Bool.not_eq_true] at hany
    rw [hany]
    simp

/-- The grant list `["*"]` matches every requested scope — including the
empty one, through the wildcard branch with an empty remaining prefix. -/
theorem validateScope_star (r : String) : validateScope ["*"] r = some true := by
  unfold validateScope
  by_cases h : (["*"].any (fun g => g == r)) = true
  · rw [if_pos h]
  · rw [if_neg h]
    have h1 : cppBack "*" = some '*' := rfl
    have h2 : cppStartsWith r (cppDropLast "*") = true := by
      unfold cppStartsWith
      cases r.toList with
      | nil => rfl
      | cons c cs => rfl
    simp [scopeWildcardLoop, h1, h2]

/-- An empty requested scope is denied by every grant list that contains
neither the empty string nor the bare `"*"` grant. -/
theorem validateScope_empty_request (G : List String)
    (h1 : "" ∉ G) (h2 : "*" ∉ G) : validateScope G "" = some false := by
  rw [validateScope_eq_spec G "" h1]
  congr 1
  unfold specScopeMatch
  rw [List.any_eq_false]
  intro g hg
  have hgne : g ≠ "" := fun he => h1 (he ▸ hg)
  have hgstar : g ≠ "*" := fun he => h2 (he ▸ hg)
  rw [Bool.not_eq_true]
  simp only [Bool.or_eq_false_iff, Bool.and_eq_false_iff]
  constructor
  · simpa using hgne
  · by_cases hb : (cppBack g == some '*') = true
    · right
      have hlast : g.toList.getLast? = some '*' := by simpa [cppBack] using hb
      have hne : g.toList ≠ [] := by
        intro hnil
        rw [hnil] at hlast
        simp at hlast
      have hdrop : g.toList.dropLast ≠ [] := by
        intro hdl
        have hlen : g.toList.length - 1 = 0 := by
          rw [← List.length_dropLast, hdl]
          rfl
        have hpos : 0 < g.toList.length := List.length_pos.mpr hne
        have hone : g.toList.length = 1 := by omega
        obtain ⟨c, hc⟩ := List.length_eq_one.mp hone
        rw [hc] at hlast
        simp at hlast
        apply hgstar
        have hstar : g.toList = ['*'] := by rw [hc, hlast]
        have hmk := congrArg String.mk hstar
        simpa using hmk
      cases hdl : (cppDropLast g).toList with
      | nil => exact absurd (by simpa [cppDropLast] using hdl) hdrop
      | cons c cs =>
        show cppStartsWith "" (cppDropLast g) = false
        unfold cppStartsWith
        rw [hdl]
        rfl
    · left
      simpa using hb

theorem redisGet_del_self (r : RedisStore) (k : String) : redisGet (redisDel r k) k = none := by
  simp only [redisGet, redisDel]
  have h : List.find? (fun e => e.key == k) (List.filter (fun e => decide (e.key ≠ k)) r) = none := by
    rw [List.find?_eq_none]
    intro e he
    simp only [List.mem_filter, decide_eq_true_eq] at he
    simp [he.2]
  rw [h]
  rfl

theorem redisGet_setex_self (r : RedisStore) (k v : String) (ttl : Int) :
    redisGet (redisSetex r k v ttl) k = some v := by
  simp [redisGet, redisSetex, List.find?_cons_of_pos]

theorem redisTtl_setex_self (r : RedisStore) (k v : String) (ttl : Int) :
    redisTtl (redisSetex r k v ttl) k = some ttl := by
  simp [redisTtl, redisSetex, List.find?_cons_of_pos]

theorem findUserByEmail_props (users : List UserRow) (email : String) (row : UserRow)
    (h : findUserByEmail users email = some row) :
    row.email = email ∧ row.deletedAt = none := by
  unfold findUserByEmail at h
  have hp := List.find?_some h
  simp only [Bool.and_eq_true, beq_iff_eq, Option.isNone_iff_eq_none] at hp
  exact hp

theorem findUserById_props (users : List UserRow) (id : String) (row : UserRow)
    (h : findUserById users id = some row) :
    row.id = id ∧ row.deletedAt = none := by
  unfold findUserById at h
  have hp := List.find?_some h
  simp only [Bool.and_eq_true, beq_iff_eq, Option.isNone_iff_eq_none] at hp
  exact hp

theorem queue_suppressAddress (db : EmailDb) (a r : String) :
    (suppressAddress db a r).queue = db.queue := by
  unfold suppressAddress
  split <;> rfl

theorem isAddressSuppressed_suppressAddress (db : EmailDb) (a r : String) :
    isAddressSuppressed (suppressAddress db a r) a = true := by
  unfold isAddressSuppressed suppressAddress
  by_cases h : db.suppression.any (fun s => s.address == a)
  · rw [if_pos h]
    simp only [List.any_eq_true] at h ⊢
    obtain ⟨s, hs, hsa⟩ := h
    refine ⟨if s.address == a then { s with reason := r } else s, List.mem_map_of_mem _ hs, ?_⟩
    rw [if_pos hsa]
    simpa using hsa
  · rw [if_neg h]
    simp [List.any_append]

/-! ## Claim theorems -/

/-- **C1** (code bug).  The claim says that after `Logout` with a valid
bearer access token of positive remaining lifetime, the Token Validator's
`Validate` on that token returns invalid.  The code writes the blacklist
entry through `RedisClient::SetSession("blacklist:" + jti, ...)`, which
prefixes the key with `"session:"`, so it lands at
`session:blacklist:<jti>` while `IsTokenBlacklisted` reads
`blacklist:<jti>`.  Concretely: the token is valid before logout, its
remaining lifetime is positive, `Logout` succeeds, and afterwards
`Validate` on the very same token *still succeeds*; the entry sits under
`session:blacklist:j1` and the blacklist lookup misses. -/
theorem logout_blacklisted_token_still_validates :
    jwtValidate sampleDecode sampleRedisAfterLogin 1000 "tok1" = some sampleClaims ∧
    sampleClaims.exp - 1000 > 0 ∧
    (logout sampleDecode sampleRedisAfterLogin 1000 "u1:aaaa" (some "Bearer tok1")).status =
      .ok ∧
    jwtValidate sampleDecode
      (logout sampleDecode sampleRedisAfterLogin 1000 "u1:aaaa" (some "Bearer tok1")).redis
      1000 "tok1" = some sampleClaims ∧
    redisGet
      (logout sampleDecode sampleRedisAfterLogin 1000 "u1:aaaa" (some "Bearer tok1")).redis
      "session:blacklist:j1" = some "logout" ∧
    isTokenBlacklisted
      (logout sampleDecode sampleRedisAfterLogin 1000 "u1:aaaa" (some "Bearer tok1")).redis
      "j1" = false := by
  decide

/-- **C2** (code bug).  The claim says a `CreateApiKey` call whose tenant
context is not validated — in particular one carrying no bearer credential
but legacy `x-user-id` / `x-tenant-id` headers — returns UNAUTHENTICATED
and creates no API-key row.  `CreateApiKey` calls
`ExtractFromMetadata(context)` with the `jwt_validator` parameter left at
its `nullptr` default, falls back to the unsafe header extraction
(`validated = false`), and then gates only on `user_id.empty()`: the call
succeeds and inserts a row keyed to the attacker-chosen headers. -/
theorem createApiKey_unvalidated_context_creates_key :
    (extractFromMetadata legacyMetadata none).validated = false ∧
    createApiKey [] legacyMetadata "ci key" ["read:*"] "sk_deadbeef" =
      ⟨.ok,
       [{ userId := "u-1", tenantId := "t-1", keyHash := hashPassword "sk_deadbeef",
          name := "ci key", scopes := "read:*" }],
       some "sk_deadbeef"⟩ := by
  decide

/-- **C3**.  When a refresh binding exists for the parsed user: a presented
token that differs from the stored one deletes the binding key, returns
PERMISSION_DENIED and issues no tokens; a matching token with an existing
non-deleted user row rotates the binding by a `DEL` followed by a `SETEX`
of the new refresh token under the same key with a fresh 30-day
(2592000 s) TTL — in that order, as recorded by the cache-command trace. -/
theorem refreshToken_reuse_and_rotation
    (redis : RedisStore) (users : List UserRow) (presented newAccess newRefresh : String)
    (colonPos : Nat) (stored : String)
    (hcolon : cppFindChar presented ':' 0 = some colonPos)
    (hstored : getSession redis ("refresh:" ++ cppSubstr presented 0 colonPos) = some stored) :
    (stored ≠ presented →
      (refreshTokenOp redis users presented newAccess newRefresh).status = .permissionDenied ∧
      (refreshTokenOp redis users presented newAccess newRefresh).tokens = none ∧
      getSession (refreshTokenOp redis users presented newAccess newRefresh).redis
        ("refresh:" ++ cppSubstr presented 0 colonPos) = none ∧
      (refreshTokenOp redis users presented newAccess newRefresh).trace =
        [.get ("session:" ++ ("refresh:" ++ cppSubstr presented 0 colonPos)),
         .del ("session:" ++ ("refresh:" ++ cppSubstr presented 0 colonPos))])
  ∧ (stored = presented →
      ∀ row, findUserById users (cppSubstr presented 0 colonPos) = some row →
      (refreshTokenOp redis users presented newAccess newRefresh).status = .ok ∧
      (refreshTokenOp redis users presented newAccess newRefresh).tokens =
        some (newAccess, newRefresh, 900) ∧
      (refreshTokenOp redis users presented newAccess newRefresh).trace =
        [.get ("session:" ++ ("refresh:" ++ cppSubstr presented 0 colonPos)),
         .del ("session:" ++ ("refresh:" ++ cppSubstr presented 0 colonPos)),
         .setex ("session:" ++ ("refresh:" ++ cppSubstr presented 0 colonPos))
           newRefresh (30 * 24 * 3600)] ∧
      getSession (refreshTokenOp redis users presented newAccess newRefresh).redis
        ("refresh:" ++ cppSubstr presented 0 colonPos) = some newRefresh ∧
      redisTtl (refreshTokenOp redis users presented newAccess newRefresh).redis
        ("session:" ++ ("refresh:" ++ cppSubstr presented 0 colonPos)) =
        some (30 * 24 * 3600)) := by
  have hne : presented ≠ "" := by
    intro he
    subst he
    simp [cppFindChar] at hcolon
  constructor
  · intro hdiff
    simp only [refreshTokenOp, if_neg hne, hcolon, hstored, if_pos hdiff]
    refine ⟨trivial, trivial, ?_, trivial⟩
    exact redisGet_del_self redis ("session:" ++ ("refresh:" ++ cppSubstr presented 0 colonPos))
  · intro heq row hrow
    have hdiff : ¬ (stored ≠ presented) := by simp [heq]
    simp only [refreshTokenOp, if_neg hne, hcolon, hstored, if_neg hdiff, hrow]
    refine ⟨trivial, trivial, trivial, ?_, ?_⟩
    · exact redisGet_setex_self _ _ _ _
    · exact redisTtl_setex_self _ _ _ _

/-- Witness for **C3** at a concrete state: a reuse attempt (`u1:zzzz`
against stored `u1:aaaa`) is denied, and presenting the stored token
rotates successfully. -/
theorem refreshToken_reuse_and_rotation_witness :
    (refreshTokenOp sampleRedisAfterLogin [sampleUser] "u1:zzzz" "tokA" "u1:bbbb").status =
      .permissionDenied ∧
    (refreshTokenOp sampleRedisAfterLogin [sampleUser] "u1:aaaa" "tokA" "u1:bbbb").status =
      .ok :=
  ⟨((refreshToken_reuse_and_rotation sampleRedisAfterLogin [sampleUser] "u1:zzzz"
      "tokA" "u1:bbbb" 2 "u1:aaaa" (by decide) (by decide)).1 (by decide)).1,
   ((refreshToken_reuse_and_rotation sampleRedisAfterLogin [sampleUser] "u1:aaaa"
      "tokA" "u1:bbbb" 2 "u1:aaaa" (by decide) (by decide)).2 rfl sampleUser (by decide)).1⟩

/-- **C4**.  (i) An account whose stored password hash is `NULL` is never
granted a session through the password-login path: `Login` issues no
tokens and does not return OK.  (ii) Whenever `Login` or `RefreshToken`
does issue tokens, the user row it authenticated is one the non-deleted
lookup returned (`deleted_at IS NULL`), and for `Login` that row's
password hash is non-null — so a soft-deleted user is never granted a
session by either operation. -/
theorem login_refresh_session_invariants (users : List UserRow) (codes : List BackupCodeRow)
    (redis : RedisStore) (email password : String) (totpCode : Option String)
    (tv bv : String → String → Bool) (na nr : String) (now : Int)
    (presented rna rnr : String) :
    (∀ row, findUserByEmail users email = some row → row.passwordHash = none →
      (login users codes redis email password totpCode tv bv na nr now).tokens = none ∧
      (login users codes redis email password totpCode tv bv na nr now).status ≠ .ok)
  ∧ ((login users codes redis email password totpCode tv bv na nr now).tokens ≠ none →
      ∃ row, findUserByEmail users email = some row ∧ row.deletedAt = none ∧
        row.passwordHash ≠ none)
  ∧ ((refreshTokenOp redis users presented rna rnr).tokens ≠ none →
      ∃ colonPos row, cppFindChar presented ':' 0 = some colonPos ∧
        findUserById users (cppSubstr presented 0 colonPos) = some row ∧
        row.deletedAt = none) := by
  refine ⟨?_, ?_, ?_⟩
  · intro row hrow hnull
    by_cases hip : email = "" ∨ password = ""
    · simp [login, hip]
    · have hpw : password ≠ "" := fun h => hip (Or.inr h)
      simp only [login, if_neg hip, hrow, hnull]
      simp [hpw]
  · intro htok
    by_cases hip : email = "" ∨ password = ""
    · exact absurd (by simp [login, hip]) htok
    · have hpw : password ≠ "" := fun h => hip (Or.inr h)
      cases hfind : findUserByEmail users email with
      | none => exact absurd (by simp [login, if_neg hip, hfind]) htok
      | some row =>
        refine ⟨row, rfl, (findUserByEmail_props users email row hfind).2, ?_⟩
        intro hnull
        exact absurd (by simp only [login, if_neg hip, hfind, hnull]; simp [hpw]) htok
  · intro htok
    by_cases hne : presented = ""
    · exact absurd (by simp [refreshTokenOp, hne]) htok
    · cases hcol : cppFindChar presented ':' 0 with
      | none => exact absurd (by simp [refreshTokenOp, if_neg hne, hcol]) htok
      | some cp =>
        cases hst : getSession redis ("refresh:" ++ cppSubstr presented 0 cp) with
        | none => exact absurd (by simp [refreshTokenOp, if_neg hne, hcol, hst]) htok
        | some stored =>
          by_cases hdiff : stored ≠ presented
          · exact absurd (by simp [refreshTokenOp, if_neg hne, hcol, hst, hdiff]) htok
          · cases hrow : findUserById users (cppSubstr presented 0 cp) with
            | none =>
              exact absurd
                (by simp [refreshTokenOp, if_neg hne, hcol, hst, hdiff, hrow]) htok
            | some row =>
              exact ⟨cp, row, rfl, hrow,
                (findUserById_props users (cppSubstr presented 0 cp) row hrow).2⟩

/-- Witness for **C4**: a login against an OAuth-only (null-hash) user
issues no tokens; a successful login and a successful refresh each exhibit
their non-deleted authenticated row. -/
theorem login_refresh_session_invariants_witness :
    (login [sampleOauthUser] [] [] "oauth@example.com" "pw" none
      (fun _ _ => false) (fun _ _ => false) "a" "r" 0).tokens = none ∧
    (∃ row, findUserByEmail [sampleUser] "u1@example.com" = some row ∧
      row.deletedAt = none ∧ row.passwordHash ≠ none) ∧
    (∃ colonPos row, cppFindChar "u1:aaaa" ':' 0 = some colonPos ∧
      findUserById [sampleUser] (cppSubstr "u1:aaaa" 0 colonPos) = some row ∧
      row.deletedAt = none) :=
  ⟨((login_refresh_session_invariants [sampleOauthUser] [] [] "oauth@example.com" "pw" none
      (fun _ _ => false) (fun _ _ => false) "a" "r" 0 "p" "x" "y").1
      sampleOauthUser (by decide) rfl).1,
   (login_refresh_session_invariants [sampleUser] [] [] "u1@example.com" "pw" none
      (fun _ _ => false) (fun _ _ => false) "a" "r" 0 "p" "x" "y").2.1 (by decide),
   (login_refresh_session_invariants [sampleUser] [] sampleRedisAfterLogin "u1@example.com"
      "pw" none (fun _ _ => false) (fun _ _ => false) "a" "r" 0 "u1:aaaa" "na" "u1:bbbb").2.2
      (by decide)⟩

/-- **C5** counterexample.  The claim asserts `ScopeMatch(G, "") = false`
for every grant list `G` (and that the literal `*` grants only non-empty
requests).  The code grants `["*"]` on the empty requested scope: the
wildcard branch strips the `*`, leaving the empty prefix, and every string
— the empty one included — starts with the empty prefix. -/
theorem validateScope_star_grants_empty_request :
    validateScope ["*"] "" = some true := by
  decide

/-- **C5** (amended).  `ValidateScope` equals the spec's reference
`ScopeMatch` — deny by default; grant exactly on a case-sensitive exact
match or on a grant ending in `*` whose remaining prefix starts the
request, with the literal `*` matching every request *including the empty
one* — for every grant list without empty entries.  In particular it is
false on the empty grant list; `["*"]` grants every request; an empty
request is denied by every grant list containing neither `""` nor `"*"`;
and `["read:*"]` matches `"read:foo"` but neither `"write:foo"` nor
`"readfoo"`. -/
theorem validateScope_matches_spec_amended :
    (∀ (G : List String) (r : String), "" ∉ G →
      validateScope G r = some (specScopeMatch G r))
  ∧ (∀ r : String, validateScope [] r = some false)
  ∧ (∀ r : String, validateScope ["*"] r = some true)
  ∧ (∀ G : List String, "" ∉ G → "*" ∉ G → validateScope G "" = some false)
  ∧ validateScope ["read:*"] "read:foo" = some true
  ∧ validateScope ["read:*"] "write:foo" = some false
  ∧ validateScope ["read:*"] "readfoo" = some false :=
  ⟨validateScope_eq_spec, fun _ => rfl, validateScope_star, validateScope_empty_request,
   by decide, by decide, by decide⟩

/-- Witness for **C5** at concrete grant lists. -/
theorem validateScope_matches_spec_amended_witness :
    ("" ∉ (["read:*", "write:upload"] : List String)) ∧
    validateScope ["read:*", "write:upload"] "write:upload" =
      some (specScopeMatch ["read:*", "write:upload"] "write:upload") ∧
    ("" ∉ (["a"] : List String)) ∧ ("*" ∉ (["a"] : List String)) ∧
    validateScope ["a"] "" = some false :=
  ⟨by decide,
   validateScope_matches_spec_amended.1 ["read:*", "write:upload"] "write:upload" (by decide),
   by decide, by decide,
   validateScope_matches_spec_amended.2.2.2.1 ["a"] (by decide) (by decide)⟩

/-- **C6**.  The SafeUrl predicate rejects the eight URLs the spec lists
(loopback, RFC 1918 and link-local hosts, a non-allow-listed port, a
non-HTTP scheme) and accepts the two well-formed public ones. -/
theorem validateUrl_ssrf_vectors :
    validateUrl "http://localhost/x" = false ∧
    validateUrl "http://127.0.0.1/" = false ∧
    validateUrl "http://10.0.0.1/" = false ∧
    validateUrl "http://192.168.1.1/" = false ∧
    validateUrl "http://172.20.0.1/" = false ∧
    validateUrl "http://169.254.169.254/meta" = false ∧
    validateUrl "http://example.com:22/" = false ∧
    validateUrl "ftp://example.com/" = false ∧
    validateUrl "https://api.example.com/hook" = true ∧
    validateUrl "http://example.com:8080/h" = true := by
  decide

/-- **C7** (code bug).  The claim says the webhook is disabled after the
10th consecutive failed delivery.  `MarkFailed` increments
`failure_count` inside its own open transaction but reads the count back
through `GetConsecutiveFailures` on a *separate* connection and
transaction, which sees only the last committed value — the count before
this call's increment.  After 10 consecutive `MarkFailed` calls the stored
count is 10, yet the webhook is still `active` (the disable check compared
9 ≥ 10); the disable fires only during an 11th call.  The second half of
the claim holds: `QueueDelivery` against a non-active webhook errors and
inserts no delivery row. -/
theorem webhook_tenth_failure_leaves_active :
    (iterMarkFailed sampleWebhookDb "d1" 500 "connection refused" 100 10).map
        (fun db => db.webhooks.map (fun w => (w.status, w.failureCount))) =
      .ok [("active", 10)] ∧
    queueDelivery sampleDisabledWebhookDb "t1" "w1" "evt" "p" 0 "d2" =
      .error "Webhook is not active: w1" := by
  exact ⟨rfl, rfl⟩

/-- **C8**.  `ShouldRetry` is false for every 4xx status other than 429
regardless of the retry count, and otherwise true exactly when the retry
count is below 5; `GetRetryDelay` returns 0, 1, 5, 30, 300, 1800 seconds
for counts 0..5 and 1800 for every larger count. -/
theorem webhook_retry_policy :
    (∀ n s : Int, 400 ≤ s → s < 500 → s ≠ 429 → webhookShouldRetry n s = false)
  ∧ (∀ n s : Int, s < 400 ∨ 500 ≤ s ∨ s = 429 → webhookShouldRetry n s = decide (n < 5))
  ∧ webhookRetryDelay 0 = 0 ∧ webhookRetryDelay 1 = 1 ∧ webhookRetryDelay 2 = 5
  ∧ webhookRetryDelay 3 = 30 ∧ webhookRetryDelay 4 = 300 ∧ webhookRetryDelay 5 = 1800
  ∧ (∀ n : Int, 5 < n → webhookRetryDelay n = 1800) := by
  refine ⟨?_, ?_, by decide, by decide, by decide, by decide, by decide, by decide, ?_⟩
  · intro n s h1 h2 h3
    rw [webhookShouldRetry, if_pos ⟨h1, h2, h3⟩]
  · intro n s h
    rw [webhookShouldRetry, if_neg]
    rintro ⟨a, b, c⟩
    rcases h with h | h | h <;> omega
  · intro n h
    rw [webhookRetryDelay, if_neg (by omega), if_neg (by omega), if_neg (by omega),
        if_neg (by omega), if_neg (by omega), if_neg (by omega)]

/-- Witness for **C8** at concrete statuses and counts. -/
theorem webhook_retry_policy_witness :
    webhookShouldRetry 0 404 = false ∧
    webhookShouldRetry 2 500 = decide ((2 : Int) < 5) ∧
    webhookRetryDelay 9 = 1800 :=
  ⟨webhook_retry_policy.1 0 404 (by decide) (by decide) (by decide),
   webhook_retry_policy.2.1 2 500 (Or.inr (Or.inl (by decide))),
   webhook_retry_policy.2.2.2.2.2.2.2.2 9 (by decide)⟩

/-- **C9**.  Enqueueing to a suppressed address errors with the
address-is-suppressed message and inserts no row (the error carries no
state); and a hard bounce — `MarkFailed` with `hard_bounce = true` or
`MarkBounced(HARD)` — sets the email's status to BOUNCED with bounce type
HARD, upserts a Suppression row for the recipient, and makes every
subsequent `Enqueue` to that address error. -/
theorem email_suppression_and_hard_bounce (db : EmailDb)
    (tenantId userId toAddr subject html text tmpl : String)
    (priority now : Int) (newId emailId err : String) :
    (isAddressSuppressed db toAddr = true →
       enqueueEmail db tenantId userId toAddr subject html text tmpl priority now newId =
         .error "Email address is suppressed due to hard bounce")
  ∧ (∀ e, db.queue.find? (fun x => x.id == emailId) = some e →
       ∃ db', emailMarkFailed db emailId err true now = .ok db' ∧
         (∀ x ∈ db'.queue, x.id = emailId → x.status = .bounced ∧ x.bounceType = .hard) ∧
         isAddressSuppressed db' e.toAddress = true ∧
         (∀ tid uid subj h2 t2 tm2 pr2 n2 id2,
            enqueueEmail db' tid uid e.toAddress subj h2 t2 tm2 pr2 n2 id2 =
              .error "Email address is suppressed due to hard bounce"))
  ∧ (∀ e, db.queue.find? (fun x => x.id == emailId) = some e →
       ∃ db', emailMarkBounced db emailId .hard err = .ok db' ∧
         (∀ x ∈ db'.queue, x.id = emailId → x.status = .bounced ∧ x.bounceType = .hard) ∧
         isAddressSuppressed db' e.toAddress = true ∧
         (∀ tid uid subj h2 t2 tm2 pr2 n2 id2,
            enqueueEmail db' tid uid e.toAddress subj h2 t2 tm2 pr2 n2 id2 =
              .error "Email address is suppressed due to hard bounce")) := by
  refine ⟨?_, ?_, ?_⟩
  · intro hsupp
    unfold enqueueEmail
    rw [if_pos hsupp]
  · intro e he
    refine ⟨_, by simp only [emailMarkFailed, he]; rfl, ?_, ?_, ?_⟩
    · intro x hx hid
      rw [queue_suppressAddress] at hx
      simp only [List.mem_map] at hx
      obtain ⟨y, hy, hxy⟩ := hx
      by_cases hyid : (y.id == emailId)
      · rw [if_pos hyid] at hxy
        subst hxy
        exact ⟨rfl, rfl⟩
      · rw [if_neg hyid] at hxy
        subst hxy
        exact absurd (by simpa using hid) hyid
    · exact isAddressSuppressed_suppressAddress _ _ _
    · intro tid uid subj h2 t2 tm2 pr2 n2 id2
      unfold enqueueEmail
      rw [if_pos (isAddressSuppressed_suppressAddress _ _ _)]
  · intro e he
    refine ⟨_, by simp only [emailMarkBounced, he]; rfl, ?_, ?_, ?_⟩
    · intro x hx hid
      rw [queue_suppressAddress] at hx
      simp only [List.mem_map] at hx
      obtain ⟨y, hy, hxy⟩ := hx
      by_cases hyid : (y.id == emailId)
      · rw [if_pos hyid] at hxy
        subst hxy
        exact ⟨rfl, rfl⟩
      · rw [if_neg hyid] at hxy
        subst hxy
        exact absurd (by simpa using hid) hyid
    · exact isAddressSuppressed_suppressAddress _ _ _
    · intro tid uid subj h2 t2 tm2 pr2 n2 id2
      unfold enqueueEmail
      rw [if_pos (isAddressSuppressed_suppressAddress _ _ _)]

/-- Witness for **C9**: enqueue to the already-suppressed
`b@example.com` errors; hard-bouncing the concrete queued email `e1`
yields the bounced/suppressed state. -/
theorem email_suppression_and_hard_bounce_witness :
    enqueueEmail sampleSuppressedDb "t" "u" "b@example.com" "s" "h" "x" "" 0 0 "id" =
      .error "Email address is suppressed due to hard bounce" ∧
    (∃ db', emailMarkFailed sampleEmailDb "e1" "mailbox unavailable" true 50 = .ok db' ∧
       (∀ x ∈ db'.queue, x.id = "e1" → x.status = .bounced ∧ x.bounceType = .hard) ∧
       isAddressSuppressed db' sampleEmailRow.toAddress = true ∧
       (∀ tid uid subj h2 t2 tm2 pr2 n2 id2,
          enqueueEmail db' tid uid sampleEmailRow.toAddress subj h2 t2 tm2 pr2 n2 id2 =
            .error "Email address is suppressed due to hard bounce")) :=
  ⟨(email_suppression_and_hard_bounce sampleSuppressedDb "t" "u" "b@example.com" "s" "h" "x"
      "" 0 0 "id" "e9" "err").1 (by decide),
   (email_suppression_and_hard_bounce sampleEmailDb "t" "u" "x" "s" "h" "x" "" 0 50 "id"
      "e1" "mailbox unavailable").2.1 sampleEmailRow (by decide)⟩

/-- **C10** (code bug).  The claim says `ValidateScope` never reads past
the end of a grant string, so that the out-of-range branch of reading a
grant's last character is unreachable.  The comma-splitting of a stored
scopes value `"a,,b"` produces the grant list `["a", "", "b"]`, and on a
request with no exact match the wildcard loop reaches the empty grant and
calls `granted.back()` on it — the out-of-range read (`none` in the total
embedding; the unit-test mirror of this function guards the call with
`!granted.empty()`, the production code does not). -/
theorem validateScope_reads_past_end_on_empty_grant :
    cppGetlineSplit "a,,b" ',' = ["a", "", "b"] ∧
    validateScope (cppGetlineSplit "a,,b" ',') "read:x" = none := by
  decide

end SaaSForge
